import Mathlib

/-!
Verification of the segment/row rendering engine and VCS status detection
of powerline-shell (a prompt generator).  Every definition below is a
shallow embedding of the corresponding function in `powerline-shell.py`;
source line numbers are given on each definition.
-/

namespace PowerlineShell

/-! ## Python string primitives used by the program -/

/-- Characters removed by Python's `str.strip()` / `bytes.strip()`. -/
def pyIsSpace (c : Char) : Bool :=
  c = ' ' ∨ c = '\t' ∨ c = '\n' ∨ c = '\x0d' ∨ c = '\x0b' ∨ c = '\x0c'

/-- Python `str.strip()` on a character list. -/
def pyStripL (l : List Char) : List Char :=
  ((l.dropWhile pyIsSpace).reverse.dropWhile pyIsSpace).reverse

/-- Python `s.strip()`: remove leading and trailing whitespace. -/
def pyStrip (s : String) : String :=
  String.mk (pyStripL s.toList)

/-- Python `s.rstrip()`: remove trailing whitespace. -/
def pyRstrip (s : String) : String :=
  String.mk ((s.toList.reverse.dropWhile pyIsSpace).reverse)

/-- Contiguous-sublist test on character lists. -/
def hasInfix : List Char → List Char → Bool
  | [], sub => sub.isEmpty
  | c :: t, sub => sub.isPrefixOf (c :: t) || hasInfix t sub

/-- Python `sub in s` / `s.find(sub) >= 0`: contiguous substring occurrence. -/
def pyContains (s sub : String) : Bool :=
  hasInfix s.toList sub.toList

/-- Value of Python `int(...)` on a string of decimal digits. -/
def natOfDigits (cs : List Char) : Nat :=
  cs.foldl (fun n c => 10 * n + (c.toNat - '0'.toNat)) 0

/-- Python `s.split(sep)` for a one-character separator, on character
lists: splitting the empty string yields one empty field, and a trailing
separator yields a trailing empty field. -/
def pySplit (sep : Char) : List Char → List (List Char)
  | [] => [[]]
  | c :: t =>
    let r := pySplit sep t
    if c = sep then [] :: r
    else
      match r with
      | [] => [[c]]
      | h :: t2 => (c :: h) :: t2

/-- Python `s.split(sep)` returning strings. -/
def pySplitStr (sep : Char) (s : String) : List String :=
  (pySplit sep s.toList).map String.mk

/-- Python `s[n:]`: drop the first `n` characters. -/
def pyDrop (s : String) (n : Nat) : String :=
  String.mk (s.toList.drop n)

/-- Python slice `l[i:]` for a possibly negative `i`
(negative start counts from the end, clamped at 0). -/
def pySliceFrom (i : Int) (l : List α) : List α :=
  if i < 0 then l.drop (l.length - (-i).toNat) else l.drop i.toNat

/-- The character printed for one decimal digit (used to model the numeral
printed by `grep -c`). -/
def digitChar10 (m : Nat) : Char :=
  Char.ofNat (48 + m)

/-- Big-endian decimal digits with explicit fuel, in the style of
`Nat.toDigitsCore`: models the text an external tool prints for a count. -/
def decimalCore : Nat → Nat → List Char → List Char
  | 0, _, acc => acc
  | f + 1, n, acc =>
    let d := digitChar10 (n % 10)
    if n / 10 = 0 then d :: acc
    else decimalCore f (n / 10) (d :: acc)

/-- The decimal numeral of a natural number. -/
def decimalRepr (n : Nat) : String :=
  String.mk (decimalCore (n + 1) n [])

/-! ## Color palette (powerline-shell.py lines 37-68, class Color) -/

namespace Color

def PATH_BG : Nat := 237
def PATH_FG : Nat := 250
def CWD_FG : Nat := 254
def CWD_BG : Nat := 25
def SEPARATOR_FG : Nat := 244
def TIME_BG : Nat := 25
def TIME_FG : Nat := 254
def EXTRA_BG : Nat := 238
def EXTRA_FG : Nat := 252
def EXTRA_SEPC : Nat := 244
def REPO_CLEAN_BG : Nat := 148
def REPO_CLEAN_FG : Nat := 0
def REPO_DIRTY_BG : Nat := 161
def REPO_DIRTY_FG : Nat := 15
def CMD_PASSED_BG : Nat := 236
def CMD_PASSED_FG : Nat := 15
def CMD_FAILED_BG : Nat := 161
def CMD_FAILED_FG : Nat := 15
def SVN_CHANGES_BG : Nat := 148
def SVN_CHANGES_FG : Nat := 22
def VIRTUAL_ENV_BG : Nat := 35
def VIRTUAL_ENV_FG : Nat := 0

end Color

/-! ## Powerline and Segment (powerline-shell.py lines 71-191) -/

/-- The `--mode` argument selecting the glyph set (lines 72-85). -/
inductive Mode
  | compatible
  | patched
deriving DecidableEq

/-- The `--shell` argument selecting the escape template (lines 87-97). -/
inductive Shell
  | bash
  | zsh
  | bare
deriving DecidableEq

/-- `color_templates` (lines 87-91): wraps a raw ANSI parameter string in the
shell's non-printing-escape delimiters.  (The zsh template's literal braces
are written with hex escapes.) -/
def colorTemplate : Shell → String → String
  | Shell.bash, s => "\\[\\e" ++ s ++ "\\]"
  | Shell.zsh, s => "%\x7b" ++ s ++ "%\x7d"
  | Shell.bare, s => s

/-- `root_indicators` (lines 93-97). -/
def rootIndicator : Shell → String
  | Shell.bash => " \\$ "
  | Shell.zsh => " $ "
  | Shell.bare => " $ "

/-- A segment as stored by `Segment.__init__` (lines 152-161).  The Python
object also keeps a back-reference `self.powerline`; here the powerline is
passed explicitly to `Segment.draw` instead. -/
structure Segment where
  content : String
  fg : Nat
  bg : Nat
  separator : String
  separator_fg : Nat
  right : Bool
deriving DecidableEq

/-- The `Powerline` instance state after `__init__` (lines 99-111).
`width` is the value of `int(self.width)` (the CLI passes a numeral). -/
structure Powerline where
  shell : Shell
  reset : String
  root_indicator : String
  separator : String
  separator_right : String
  separator_thin : String
  separator_right_thin : String
  segments : List Segment
  segments_right : List Segment
  segments_down : List Segment
  width : Int
deriving DecidableEq

/-- `Powerline.__init__(mode, shell, width)` (lines 99-111), with the
symbol table of lines 72-85. -/
def Powerline.make (mode : Mode) (shell : Shell) (width : Int) : Powerline :=
  { shell := shell
    reset := colorTemplate shell "[0m"
    root_indicator := rootIndicator shell
    separator := match mode with
      | Mode.compatible => "▶"
      | Mode.patched => ""
    separator_right := match mode with
      | Mode.compatible => "◀"
      | Mode.patched => ""
    separator_thin := match mode with
      | Mode.compatible => "❯"
      | Mode.patched => ""
    separator_right_thin := match mode with
      | Mode.compatible => "❮"
      | Mode.patched => ""
    segments := []
    segments_right := []
    segments_down := []
    width := width }

/-- `Powerline.color(prefix, code)` (lines 113-114). -/
def Powerline.color (pl : Powerline) (pfx : String) (code : Nat) : String :=
  colorTemplate pl.shell ("[" ++ pfx ++ ";5;" ++ toString code ++ "m")

/-- `Powerline.fgcolor` (lines 116-117). -/
def Powerline.fgcolor (pl : Powerline) (code : Nat) : String :=
  pl.color "38" code

/-- `Powerline.bgcolor` (lines 119-120). -/
def Powerline.bgcolor (pl : Powerline) (code : Nat) : String :=
  pl.color "48" code

/-- `Powerline.append` (lines 122-123). -/
def Powerline.append (pl : Powerline) (s : Segment) : Powerline :=
  { pl with segments := pl.segments ++ [s] }

/-- `Powerline.append_right` (lines 125-126). -/
def Powerline.append_right (pl : Powerline) (s : Segment) : Powerline :=
  { pl with segments_right := pl.segments_right ++ [s] }

/-- `Powerline.append_down` (lines 128-129). -/
def Powerline.append_down (pl : Powerline) (s : Segment) : Powerline :=
  { pl with segments_down := pl.segments_down ++ [s] }

/-- `Segment.__init__` (lines 152-161).  Python's `separator or
powerline.separator` treats both `None` and the empty string as unset, and
`separator_fg or bg` treats both `None` and `0` as unset. -/
def Segment.make (powerline : Powerline) (content : String) (fg bg : Nat)
    (separator : Option String) (separator_fg : Option Nat) (right : Bool) :
    Segment :=
  { content := content
    fg := fg
    bg := bg
    separator := match separator with
      | some s => if s ≠ "" then s else powerline.separator
      | none => powerline.separator
    separator_fg := match separator_fg with
      | some n => if n ≠ 0 then n else bg
      | none => bg
    right := right }

/-- `Segment.width` (lines 163-166): character length of content plus
separator. -/
def Segment.width (s : Segment) : Nat :=
  (s.content ++ s.separator).length

/-- One piece of rendered output: either a non-printing color escape or
printed text.  The Python code produces a flat string; the chunk tags record
which parts are `color_template`-wrapped escapes, so that "ignoring color
escapes" is definable. -/
inductive Chunk
  | esc (s : String)
  | txt (s : String)
deriving DecidableEq

/-- Number of printed characters in a chunk list, ignoring escapes. -/
def visibleLen : List Chunk → Nat
  | [] => 0
  | Chunk.esc _ :: r => visibleLen r
  | Chunk.txt s :: r => s.length + visibleLen r

/-- `Segment.draw(next_segment)` (lines 168-191).  `pl` is the Python
object's `self.powerline` back-reference. -/
def Segment.draw (pl : Powerline) (s : Segment) (next : Option Segment) :
    List Chunk :=
  let separator_bg : String := match next with
    | some n => pl.bgcolor n.bg
    | none => pl.reset
  if s.right then
    [Chunk.esc separator_bg,
     Chunk.esc (pl.fgcolor s.separator_fg),
     Chunk.txt s.separator,
     Chunk.esc (pl.fgcolor s.fg),
     Chunk.esc (pl.bgcolor s.bg),
     Chunk.txt s.content]
  else
    [Chunk.esc (pl.fgcolor s.fg),
     Chunk.esc (pl.bgcolor s.bg),
     Chunk.txt s.content,
     Chunk.esc separator_bg,
     Chunk.esc (pl.fgcolor s.separator_fg),
     Chunk.txt s.separator]

/-- The pairing `zip(row, row[1:] + [None])` used by `Powerline.draw`
(lines 132-134, 144, 146). -/
def withNext (l : List Segment) : List (Segment × Option Segment) :=
  l.zip ((l.drop 1).map some ++ [none])

/-- The right-row pairing `zip(reversed(segments_right),
reversed(segments_right[1:] + [None]))` of line 145. -/
def rightPairs (l : List Segment) : List (Segment × Option Segment) :=
  l.reverse.zip ((l.drop 1).map some ++ [none]).reverse

/-- The width accounting of `Powerline.draw` (lines 136-138):
`total = sum of widths of segments and segments_right`. -/
def Powerline.total (pl : Powerline) : Nat :=
  (pl.segments.map Segment.width).sum + (pl.segments_right.map Segment.width).sum

/-- The padding of `Powerline.draw` (lines 140-141):
`spaces = int(self.width) - total; fold = ' ' * spaces`
(a negative repeat count yields the empty string in Python). -/
def Powerline.fold (pl : Powerline) : String :=
  String.mk (List.replicate (pl.width - (pl.total : Int)).toNat ' ')

/-- The first output line of `Powerline.draw` (lines 143-145): left row,
reset, padding, reversed right row, reset. -/
def Powerline.drawLine1 (pl : Powerline) : List Chunk :=
  ((withNext pl.segments).flatMap fun q => Segment.draw pl q.1 q.2)
    ++ [Chunk.esc pl.reset]
    ++ [Chunk.txt pl.fold]
    ++ ((rightPairs pl.segments_right).flatMap fun q => Segment.draw pl q.1 q.2)
    ++ [Chunk.esc pl.reset]

/-- `Powerline.draw` (lines 131-149): first line, newline, down row, reset. -/
def Powerline.draw (pl : Powerline) : List Chunk :=
  pl.drawLine1
    ++ [Chunk.txt "\n"]
    ++ ((withNext pl.segments_down).flatMap fun q => Segment.draw pl q.1 q.2)
    ++ [Chunk.esc pl.reset]

/-! ## Working-directory segment (powerline-shell.py lines 194-220)

`add_cwd_segment(powerline, cwd, maxdepth, cwd_only)` reads the environment
variable `HOME`; it is passed here as the explicit argument `home`.  The
`cwd or os.getenv('PWD')` fallback is outside the model: `cwd` is the
(non-`None`) working directory the `__main__` block always passes. -/

/-- Lines 200-201: `if cwd.find(home) == 0: cwd = cwd.replace(home, '~', 1)`.
Under the guard the first occurrence of `home` is at position 0, so the
single replacement rewrites the leading `home` prefix. -/
def homeShorten (home cwd : String) : String :=
  if home.toList.isPrefixOf cwd.toList then "~" ++ pyDrop cwd home.length
  else cwd

/-- Lines 203-204: `if cwd[0] == '/': cwd = cwd[1:]`.  (Python raises
`IndexError` on the empty string; no in-scope call site produces one.) -/
def stripLeadingSlash (cwd : String) : String :=
  match cwd.toList with
  | '/' :: t => String.mk t
  | _ => cwd

/-- Line 206: `names = cwd.split('/')` after home shortening and leading
slash removal. -/
def preNames (home cwd : String) : List String :=
  pySplitStr '/' (stripLeadingSlash (homeShorten home cwd))

/-- Lines 207-208: `if len(names) > maxdepth:
names = names[:2] + [u'…'] + names[2 - maxdepth:]`. -/
def collapseNames (maxdepth : Int) (names : List String) : List String :=
  if (names.length : Int) > maxdepth then
    names.take 2 ++ ["…"] ++ pySliceFrom (2 - maxdepth) names
  else names

/-- The component list used by `add_cwd_segment` (lines 206-208). -/
def cwdNames (home cwd : String) (maxdepth : Int) : List String :=
  collapseNames maxdepth (preNames home cwd)

/-- `add_cwd_segment` (lines 194-220). -/
def add_cwd_segment (home : String) (powerline : Powerline) (cwd : String)
    (maxdepth : Int) (cwd_only : Bool) : Powerline :=
  let names := cwdNames home cwd maxdepth
  let pl :=
    if cwd_only then powerline
    else
      (List.range names.dropLast.length).foldl
        (fun acc n =>
          let sep := if (Int.ofNat n) = (names.length : Int) - 2 then
              powerline.separator
            else powerline.separator_thin
          let sepc := if (Int.ofNat n) = (names.length : Int) - 2 then
              Color.PATH_BG
            else Color.SEPARATOR_FG
          acc.append (Segment.make powerline (" " ++ names.getD n "" ++ " ")
            Color.PATH_FG Color.PATH_BG (some sep) (some sepc) false))
        powerline
  pl.append (Segment.make powerline (" " ++ names.getLastD "" ++ " ")
    Color.CWD_FG Color.CWD_BG none none false)

/-! ## Subprocess world

The VCS detectors consume output of external processes.  A `World` value
records what each subprocess invocation would produce; `PyErr` models the
two exception classes the program handles (`OSError` when an executable is
absent or an I/O error occurs, `subprocess.CalledProcessError`). -/

inductive PyErr
  | oSError
  | calledProcessError
deriving DecidableEq

deriving instance DecidableEq for Except

/-- Results of the external process invocations made during one run. -/
structure World where
  /-- Stdout of the pipe built at lines 286-288: `git branch | grep -e '\*'`,
  as decoded text before `.strip()`. -/
  gitBranchGrepRaw : Except PyErr String
  /-- Stdout of `git status` (lines 265-266), decoded, before splitting. -/
  gitStatusRaw : Except PyErr String
  /-- Stderr of the first `svn status` (lines 309-310), before `.strip()`. -/
  svnStatusErrRaw : Except PyErr String
  /-- The lines of the second `svn status`'s stdout, as seen by the `grep`
  of lines 330-334. -/
  svnStatusLines : Except PyErr (List String)
  /-- Output of `os.popen('hg branch 2> /dev/null').read()` (line 242). -/
  hgBranchRaw : Except PyErr String
  /-- Stdout of `hg status` (lines 227-228), decoded, before splitting. -/
  hgStatusRaw : Except PyErr String
deriving DecidableEq

/-! ## git status parsing (powerline-shell.py lines 261-305) -/

/-- The `\d` class of the regex at line 269 (git output is ASCII). -/
def isAsciiDigit (c : Char) : Bool := '0' ≤ c ∧ c ≤ '9'

/-- The `.*?(\d+) comm` tail of the regex at line 269, with the regex
engine's lazy-dot/greedy-digits semantics: the group captures the first
maximal digit run that is immediately followed by `" comm"`. -/
def findCountTail : List Char → Option (List Char)
  | [] => none
  | c :: rest =>
    if isAsciiDigit c then
      if (" comm".toList).isPrefixOf ((c :: rest).dropWhile isAsciiDigit) then
        some ((c :: rest).takeWhile isAsciiDigit)
      else findCountTail rest
    else findCountTail rest

/-- Leftmost match of `re.findall(r"Your branch is (ahead|behind).*?(\d+)
comm", line)` (lines 268-269): the alternation group and the captured digit
run of the first start position at which the whole pattern matches. -/
def findOrigin : List Char → Option (String × List Char)
  | [] => none
  | c :: rest =>
    if ("Your branch is ahead".toList).isPrefixOf (c :: rest) then
      match findCountTail ((c :: rest).drop 20) with
      | some run => some ("ahead", run)
      | none => findOrigin rest
    else if ("Your branch is behind".toList).isPrefixOf (c :: rest) then
      match findCountTail ((c :: rest).drop 21) with
      | some run => some ("behind", run)
      | none => findOrigin rest
    else findOrigin rest

/-- The three values accumulated by `get_git_status` (lines 261-281). -/
structure GitStatus where
  has_pending_commits : Bool
  has_untracked_files : Bool
  origin_position : String
deriving DecidableEq

/-- The body of the `for line in output.split('\n')` loop of
`get_git_status` (lines 267-280). -/
def gitStep (st : GitStatus) (line : String) : GitStatus :=
  let st1 := match findOrigin line.toList with
    | some (dir, run) =>
      let pos0 := " " ++ toString (natOfDigits run)
      let pos1 := if dir = "behind" then pos0 ++ "⇣" else pos0
      let pos2 := if dir = "ahead" then pos1 ++ "⇡" else pos1
      { st with origin_position := pos2 }
    | none => st
  let st2 := if pyContains line "nothing to commit" then
      { st1 with has_pending_commits := false }
    else st1
  if pyContains line "Untracked files" then
    { st2 with has_untracked_files := true }
  else st2

/-- `get_git_status` applied to the split lines of the status text. -/
def gitStatusLines (lines : List String) : GitStatus :=
  lines.foldl gitStep { has_pending_commits := true,
                        has_untracked_files := false,
                        origin_position := "" }

/-- `get_git_status()` (lines 261-281) as a function of the `git status`
stdout text. -/
def get_git_status (output : String) : GitStatus :=
  gitStatusLines (pySplitStr '\n' output)

/-- `add_git_segment` (lines 284-305).  The unused `cwd` parameter is kept
from the Python signature. -/
def add_git_segment (w : World) (powerline : Powerline) (cwd : String) :
    Except PyErr (Bool × Powerline) :=
  match w.gitBranchGrepRaw with
  | Except.error e => Except.error e
  | Except.ok raw =>
    let output := pyStrip raw
    if output = "" then Except.ok (false, powerline)
    else
      let branch := pyDrop (pyRstrip output) 2
      match w.gitStatusRaw with
      | Except.error e => Except.error e
      | Except.ok statusRaw =>
        let st := get_git_status statusRaw
        let branch := branch ++ st.origin_position
        let branch := if st.has_untracked_files then branch ++ " +" else branch
        let bg := if st.has_pending_commits then Color.REPO_DIRTY_BG
          else Color.REPO_CLEAN_BG
        let fg := if st.has_pending_commits then Color.REPO_DIRTY_FG
          else Color.REPO_CLEAN_FG
        Except.ok (true, powerline.append_right
          (Segment.make powerline (" " ++ branch ++ " ") fg bg
            (some powerline.separator_right) none true))

/-! ## Mercurial status (powerline-shell.py lines 223-258) -/

/-- The body of the `for line in output.split('\n')` loop of
`get_hg_status` (lines 229-237); the triple is (modified, untracked,
missing). -/
def hgStep : Bool × Bool × Bool → String → Bool × Bool × Bool
  | (m, u, mis), line =>
    if line = "" then (m, u, mis)
    else if line.front = '?' then (m, true, mis)
    else if line.front = '!' then (m, u, true)
    else (true, u, mis)

/-- `get_hg_status()` (lines 223-238). -/
def get_hg_status (output : String) : Bool × Bool × Bool :=
  (pySplitStr '\n' output).foldl hgStep (false, false, false)

/-- `add_hg_segment` (lines 241-258). -/
def add_hg_segment (w : World) (powerline : Powerline) (cwd : String) :
    Except PyErr (Bool × Powerline) :=
  match w.hgBranchRaw with
  | Except.error e => Except.error e
  | Except.ok raw =>
    let branch := pyRstrip raw
    if branch.length = 0 then Except.ok (false, powerline)
    else
      match w.hgStatusRaw with
      | Except.error e => Except.error e
      | Except.ok statusRaw =>
        let flags := get_hg_status statusRaw
        let dirty := flags.1 || flags.2.1 || flags.2.2
        let bg := if dirty then Color.REPO_DIRTY_BG else Color.REPO_CLEAN_BG
        let fg := if dirty then Color.REPO_DIRTY_FG else Color.REPO_CLEAN_FG
        let extra := (if flags.2.1 then "+" else "")
          ++ (if flags.2.2 then "!" else "")
        let branch := if dirty ∧ extra ≠ "" then branch ++ " " ++ extra
          else branch
        Except.ok (true, powerline.append_right
          (Segment.make powerline (" " ++ branch ++ " ") fg bg
            (some powerline.separator_right) none true))

/-! ## Subversion status (powerline-shell.py lines 308-343) -/

/-- The bracket expression of `grep -c '^[ACDIMR\!\~]'` (line 332).  Inside
a POSIX bracket expression the backslash is an ordinary character, so the
class is A, C, D, I, M, R, backslash, exclamation mark, tilde — and no X. -/
def svnClass : List Char := ['A', 'C', 'D', 'I', 'M', 'R', '\\', '!', '~']

/-- Whether `grep '^[ACDIMR\!\~]'` matches a line. -/
def svnMatches (line : String) : Bool :=
  match line.toList with
  | [] => false
  | c :: _ => c ∈ svnClass

/-- The count printed by the `grep -c` of lines 332-333. -/
def svnGrepCount (lines : List String) : Nat :=
  (lines.filter svnMatches).length

/-- `add_svn_segment` (lines 308-343).  The first `svn status` (line 309)
runs outside the `try`, so its failure propagates; the piped `svn status |
grep -c ...` (lines 330-334) runs inside the `try`, whose handlers return
`False`.  When the stderr test fails the Python function returns `None`;
`None` and `False` are both falsy at the dispatcher, so both are modeled as
`false` here.  `grep -c` prints the decimal numeral of the match count
followed by a newline; `int(output)` reads it back via `natOfDigits`. -/
def add_svn_segment (w : World) (powerline : Powerline) (cwd : String) :
    Except PyErr (Bool × Powerline) :=
  match w.svnStatusErrRaw with
  | Except.error e => Except.error e
  | Except.ok errRaw =>
    if (pyStrip errRaw).length ≠ 0 then Except.ok (false, powerline)
    else
      match w.svnStatusLines with
      | Except.error _ => Except.ok (false, powerline)
      | Except.ok lines =>
        let output := pyStrip (decimalRepr (svnGrepCount lines) ++ "\n")
        if 0 < output.length ∧ 0 < natOfDigits output.toList then
          let changes := pyStrip output
          Except.ok (true, powerline.append
            (Segment.make powerline (" " ++ changes ++ " ")
              Color.SVN_CHANGES_FG Color.SVN_CHANGES_BG none none false))
        else Except.ok (true, powerline)

/-! ## Dispatcher (powerline-shell.py lines 368-376) -/

/-- The `try`/`except` of lines 370-376: `subprocess.CalledProcessError`
and `OSError` are caught and the loop continues (`pass`) with the global
instance unchanged. -/
def pyCatch (r : Except PyErr (Bool × Powerline)) (g : Powerline) :
    Except PyErr (Bool × Powerline) :=
  match r with
  | Except.ok v => Except.ok v
  | Except.error PyErr.calledProcessError => Except.ok (false, g)
  | Except.error PyErr.oSError => Except.ok (false, g)

/-- `add_repo_segment(powerline, cwd)` (lines 368-376).  The body calls each
detector as `add_repo_segment(p, cwd)` on the module-global instance `p`
(passed here as the first argument), never on the `powerline` parameter.
The result is the final state of the global instance. -/
def add_repo_segment (w : World) (p : Powerline) (powerline : Powerline)
    (cwd : String) : Except PyErr Powerline :=
  match pyCatch (add_git_segment w p cwd) p with
  | Except.error e => Except.error e
  | Except.ok (true, p1) => Except.ok p1
  | Except.ok (false, p1) =>
    match pyCatch (add_svn_segment w p1 cwd) p1 with
    | Except.error e => Except.error e
    | Except.ok (true, p2) => Except.ok p2
    | Except.ok (false, p2) =>
      match pyCatch (add_hg_segment w p2 cwd) p2 with
      | Except.error e => Except.error e
      | Except.ok (true, p3) => Except.ok p3
      | Except.ok (false, p3) => Except.ok p3

/-! ## The claimed Subversion code set

The spec claims the counted status codes are exactly A, C, D, I, M, R, X.
This definition follows the spec's words, for comparison with
`svnGrepCount` above (which is translated from the source). -/

/-- Status-code set named by the spec: Added, Conflicted, Deleted, Ignored,
Modified, Replaced, eXternal. -/
def specSvnCodes : List Char := ['A', 'C', 'D', 'I', 'M', 'R', 'X']

/-- Count of status lines whose first column is in `specSvnCodes`, as the
spec describes the Subversion change count. -/
def specSvnCount (lines : List String) : Nat :=
  (lines.filter fun l =>
    match l.toList with
    | [] => false
    | c :: _ => c ∈ specSvnCodes).length

/-! ## Concrete instances used in witnesses and counterexamples -/

/-- A fresh `Powerline(mode='patched', shell='bash', width=0)`. -/
def basePL : Powerline := Powerline.make Mode.patched Shell.bash 0

/-- A width-10 prompt with one 4-column left segment. -/
def plTen : Powerline :=
  (Powerline.make Mode.patched Shell.bash 10).append
    (Segment.make basePL " ~ " Color.CWD_FG Color.CWD_BG none none false)

/-- A prompt whose target width is the malformed value -1. -/
def plNeg : Powerline := Powerline.make Mode.patched Shell.bash (-1)

/-- First-appended right-row segment. -/
def segA : Segment := Segment.make basePL " A " 1 2 none none true

/-- Second-appended right-row segment. -/
def segB : Segment := Segment.make basePL " B " 3 4 none none true

/-- A world where both the git presence signal (non-empty branch output)
and the Subversion presence signal (empty `svn status` stderr, a modified
file) hold. -/
def wGit : World :=
  { gitBranchGrepRaw := Except.ok "* main"
    gitStatusRaw := Except.ok "On branch main\nnothing to commit, working tree clean"
    svnStatusErrRaw := Except.ok ""
    svnStatusLines := Except.ok ["M conflicted"]
    hgBranchRaw := Except.ok "default"
    hgStatusRaw := Except.ok "" }

/-- A world where spawning git raises `OSError` and Subversion and
Mercurial are absent. -/
def wGitErr : World :=
  { gitBranchGrepRaw := Except.error PyErr.oSError
    gitStatusRaw := Except.ok ""
    svnStatusErrRaw := Except.ok "svn: warning: W155007"
    svnStatusLines := Except.ok []
    hgBranchRaw := Except.ok ""
    hgStatusRaw := Except.ok "" }

/-- Like `wGitErr` but the git pipe runs and prints nothing. -/
def wGitAbsent : World :=
  { gitBranchGrepRaw := Except.ok ""
    gitStatusRaw := Except.ok ""
    svnStatusErrRaw := Except.ok "svn: warning: W155007"
    svnStatusLines := Except.ok []
    hgBranchRaw := Except.ok ""
    hgStatusRaw := Except.ok "" }

/-- A world where Subversion is present and `svn status` reports one
missing item (first column `!`). -/
def wSvnBang : World :=
  { gitBranchGrepRaw := Except.ok ""
    gitStatusRaw := Except.ok ""
    svnStatusErrRaw := Except.ok ""
    svnStatusLines := Except.ok ["! missing.txt"]
    hgBranchRaw := Except.ok ""
    hgStatusRaw := Except.ok "" }

/-- The status line of spec Scenario C. -/
def gitAheadLine : String := "Your branch is ahead of 'origin/main' by 3 commits"

/-- A world where git is on branch `main`, 3 commits ahead, clean. -/
def wAhead : World :=
  { gitBranchGrepRaw := Except.ok "* main"
    gitStatusRaw := Except.ok ("On branch main\n" ++ gitAheadLine
      ++ "\nnothing to commit, working tree clean")
    svnStatusErrRaw := Except.ok ""
    svnStatusLines := Except.ok []
    hgBranchRaw := Except.ok ""
    hgStatusRaw := Except.ok "" }

/-! ## Rendering lemmas -/

theorem visibleLen_append (a b : List Chunk) :
    visibleLen (a ++ b) = visibleLen a + visibleLen b := by
  induction a with
  | nil => simp [visibleLen]
  | cons c t ih => cases c <;> simp [visibleLen, ih] <;> omega

theorem visibleLen_draw (pl : Powerline) (s : Segment) (n : Option Segment) :
    visibleLen (Segment.draw pl s n) = s.width := by
  cases hr : s.right <;>
    simp [Segment.draw, hr, visibleLen, Segment.width, String.length_append] <;>
    omega

theorem visibleLen_flatMap_draw (pl : Powerline)
    (ps : List (Segment × Option Segment)) :
    visibleLen (ps.flatMap fun q => Segment.draw pl q.1 q.2)
      = ((ps.map fun q => q.1.width).sum) := by
  induction ps with
  | nil => simp [visibleLen]
  | cons p t ih =>
    simp [List.flatMap_cons, visibleLen_append, visibleLen_draw, ih]

theorem withNext_fst (l : List Segment) :
    (withNext l).map Prod.fst = l := by
  apply List.map_fst_zip
  simp
  omega

theorem rightPairs_fst (l : List Segment) :
    (rightPairs l).map Prod.fst = l.reverse := by
  apply List.map_fst_zip
  simp
  omega

theorem pairs_width_sum_left (l : List Segment) :
    ((withNext l).map fun q => q.1.width).sum = (l.map Segment.width).sum := by
  have h : ((withNext l).map fun q => q.1.width)
      = ((withNext l).map Prod.fst).map Segment.width := by
    simp [List.map_map]
  rw [h, withNext_fst]

theorem pairs_width_sum_right (l : List Segment) :
    ((rightPairs l).map fun q => q.1.width).sum = (l.map Segment.width).sum := by
  have h : ((rightPairs l).map fun q => q.1.width)
      = ((rightPairs l).map Prod.fst).map Segment.width := by
    simp [List.map_map]
  rw [h, rightPairs_fst, List.map_reverse, List.sum_reverse]

theorem fold_length (pl : Powerline) :
    pl.fold.length = (pl.width - (pl.total : Int)).toNat := by
  simp [Powerline.fold, String.length]

theorem visibleLen_drawLine1 (pl : Powerline) :
    visibleLen pl.drawLine1 = pl.total + pl.fold.length := by
  simp [Powerline.drawLine1, visibleLen_append, visibleLen,
    visibleLen_flatMap_draw, pairs_width_sum_left, pairs_width_sum_right,
    Powerline.total]
  omega

/-- C1: whenever the summed segment widths fit in the target width, the
first output line prints exactly `targetWidth` characters (color escapes
ignored); when they overflow, nothing is truncated and the line prints
exactly the occupied width, which exceeds the target. -/
theorem c1_draw_width_guarantee (pl : Powerline) :
    ((pl.total : Int) ≤ pl.width →
      (visibleLen pl.drawLine1 : Int) = pl.width)
    ∧ ((pl.total : Int) > pl.width →
      visibleLen pl.drawLine1 = pl.total) := by
  have h := visibleLen_drawLine1 pl
  have hf := fold_length pl
  constructor
  · intro hle
    rw [h, hf]
    omega
  · intro hgt
    rw [h, hf]
    omega

/-- Witness for C1 at a concrete prompt of width 10 holding one 4-column
segment. -/
theorem c1_draw_width_guarantee_witness :
    (visibleLen plTen.drawLine1 : Int) = plTen.width :=
  (c1_draw_width_guarantee plTen).1 (by decide)

/-- C6: the padding length is the clamped-at-zero difference between the
target width and the occupied width, so the padding is never a
negative-length string, and overflow (including a negative target width)
yields the empty padding without error. -/
theorem c6_padding_nonnegative (pl : Powerline) :
    pl.fold.length = (pl.width - (pl.total : Int)).toNat
    ∧ ((pl.total : Int) > pl.width → pl.fold = "") := by
  refine ⟨fold_length pl, fun hgt => ?_⟩
  have h0 : (pl.width - (pl.total : Int)).toNat = 0 := by omega
  unfold Powerline.fold
  rw [h0]
  rfl

/-- Witness for C6 at the malformed target width -1. -/
theorem c6_padding_nonnegative_witness : plNeg.fold = "" :=
  (c6_padding_nonnegative plNeg).2 (by decide)

/-- C9: `add_repo_segment` appends through the module-global instance `p`
and never reads its `powerline` parameter, so its result is independent of
that argument (and a distinct argument instance is left untouched). -/
theorem c9_repo_segment_global (w : World) (p a b : Powerline) (cwd : String) :
    add_repo_segment w p a cwd = add_repo_segment w p b cwd := rfl

/-! ## Right-row pairing (claim C3) -/

theorem zip_reverse_of_length_eq {α β : Type} :
    ∀ (l : List α) (r : List β), l.length = r.length →
      l.reverse.zip r.reverse = (l.zip r).reverse := by
  intro l
  induction l with
  | nil =>
    intro r h
    cases r with
    | nil => rfl
    | cons b s => simp at h
  | cons a t ih =>
    intro r h
    cases r with
    | nil => simp at h
    | cons b s =>
      have hl : t.length = s.length := by simpa using h
      simp only [List.reverse_cons]
      rw [List.zip_append (by simp [hl]), ih s hl]
      simp

/-- C3 counterexample: with right-row segments appended in the order
`segA`, `segB`, the pairing used by `draw` couples the last-appended
`segB` with `none`, and the first-appended `segA` is coupled with
`some segB`, not with `none` as the claim states. -/
theorem c3_right_row_pairing_counterexample :
    rightPairs [segA, segB] = [(segB, none), (segA, some segB)]
    ∧ (segA, (none : Option Segment)) ∉ rightPairs [segA, segB] := by
  constructor
  · rfl
  · decide

/-- C3 (amended): the right row is iterated in reversed stored order, but
each element is paired with its successor in the stored (append) order —
the same pairing as the left row, in reversed rendering order — so the
last-appended right-row segment is the one paired with `none` (and hence
drawn with the reset code as its separator background). -/
theorem c3_right_row_pairing (l : List Segment) :
    rightPairs l = (withNext l).reverse
    ∧ ∀ x, l.getLast? = some x → (rightPairs l).head? = some (x, none) := by
  have hmain : rightPairs l = (withNext l).reverse := by
    cases l with
    | nil => rfl
    | cons a t =>
      unfold rightPairs withNext
      exact zip_reverse_of_length_eq _ _ (by simp)
  refine ⟨hmain, fun x hx => ?_⟩
  rw [hmain, List.head?_reverse]
  -- remains: (withNext l).getLast? = some (x, none)
  have hne : l ≠ [] := by
    intro h
    rw [h] at hx
    simp at hx
  unfold withNext
  rcases hr : l.reverse with _ | ⟨y, ys⟩
  · exact absurd (by simpa using congrArg List.reverse hr) hne
  · have hy : y = x := by
      have := List.head?_reverse l
      rw [hr] at this
      rw [hx] at this
      simpa using this
    subst hy
    have hlen : ((l.drop 1).map some ++ [(none : Option Segment)]).length
        = l.length := by
      have : l.length ≠ 0 := fun h => hne (List.eq_nil_of_length_eq_zero h)
      simp
      omega
    have hz := zip_reverse_of_length_eq l ((l.drop 1).map some ++ [none])
      hlen.symm
    -- getLast? of the zip equals head? of the reversed zip
    rw [List.getLast?_eq_head?_reverse, ← hz, hr]
    simp [List.reverse_append]

/-- Witness for C3 at the concrete two-segment right row. -/
theorem c3_right_row_pairing_witness :
    (rightPairs [segA, segB]).head? = some (segB, none) :=
  (c3_right_row_pairing [segA, segB]).2 segB rfl

/-! ## Dispatcher lemmas (claims C2, C8) -/

theorem pyCatch_ok_exists (r : Except PyErr (Bool × Powerline))
    (g : Powerline) : ∃ v, pyCatch r g = Except.ok v := by
  rcases r with e | v
  · cases e
    · exact ⟨(false, g), rfl⟩
    · exact ⟨(false, g), rfl⟩
  · exact ⟨v, rfl⟩

theorem add_git_segment_congr (w w' : World) (pl : Powerline) (cwd : String)
    (h1 : w'.gitBranchGrepRaw = w.gitBranchGrepRaw)
    (h2 : w'.gitStatusRaw = w.gitStatusRaw) :
    add_git_segment w' pl cwd = add_git_segment w pl cwd := by
  unfold add_git_segment
  rw [h1, h2]

theorem add_svn_segment_congr (w w' : World) (pl : Powerline) (cwd : String)
    (h1 : w'.svnStatusErrRaw = w.svnStatusErrRaw)
    (h2 : w'.svnStatusLines = w.svnStatusLines) :
    add_svn_segment w' pl cwd = add_svn_segment w pl cwd := by
  unfold add_svn_segment
  rw [h1, h2]

theorem add_hg_segment_congr (w w' : World) (pl : Powerline) (cwd : String)
    (h1 : w'.hgBranchRaw = w.hgBranchRaw)
    (h2 : w'.hgStatusRaw = w.hgStatusRaw) :
    add_hg_segment w' pl cwd = add_hg_segment w pl cwd := by
  unfold add_hg_segment
  rw [h1, h2]

theorem add_git_segment_ok (w : World) (p : Powerline) (cwd s g : String)
    (hbr : w.gitBranchGrepRaw = Except.ok s) (hne : pyStrip s ≠ "")
    (hst : w.gitStatusRaw = Except.ok g) :
    ∃ seg : Segment,
      add_git_segment w p cwd = Except.ok (true, p.append_right seg) := by
  unfold add_git_segment
  rw [hbr, hst]
  dsimp only
  rw [if_neg hne]
  exact ⟨_, rfl⟩

/-- C2: if the git presence test succeeds (the branch pipe runs and prints
a non-empty marker line) and the status call completes, the dispatcher
returns exactly the git detector's result: one right-row git segment is
appended, the left row is untouched (so no Subversion segment can appear),
and the outcome is independent of every Subversion and Mercurial field of
the world — those detectors are never consulted. -/
theorem c2_vcs_priority (w : World) (p a : Powerline) (cwd s g : String)
    (hbr : w.gitBranchGrepRaw = Except.ok s) (hne : pyStrip s ≠ "")
    (hst : w.gitStatusRaw = Except.ok g) :
    ∃ pg, add_git_segment w p cwd = Except.ok (true, pg)
      ∧ add_repo_segment w p a cwd = Except.ok pg
      ∧ pg.segments = p.segments
      ∧ ∀ w' : World, w'.gitBranchGrepRaw = w.gitBranchGrepRaw →
          w'.gitStatusRaw = w.gitStatusRaw →
          add_repo_segment w' p a cwd = Except.ok pg := by
  obtain ⟨seg, hgit⟩ := add_git_segment_ok w p cwd s g hbr hne hst
  refine ⟨p.append_right seg, hgit, ?_, ?_, ?_⟩
  · unfold add_repo_segment
    rw [hgit]
    rfl
  · simp [Powerline.append_right]
  · intro w' h1 h2
    have hgit' : add_git_segment w' p cwd
        = Except.ok (true, p.append_right seg) := by
      rw [add_git_segment_congr w w' p cwd h1 h2, hgit]
    unfold add_repo_segment
    rw [hgit']
    rfl

/-- Witness for C2: a world where both git and Subversion signal presence. -/
theorem c2_vcs_priority_witness :
    ∃ pg, add_git_segment wGit basePL "" = Except.ok (true, pg)
      ∧ add_repo_segment wGit basePL basePL "" = Except.ok pg
      ∧ pg.segments = basePL.segments
      ∧ ∀ w' : World, w'.gitBranchGrepRaw = wGit.gitBranchGrepRaw →
          w'.gitStatusRaw = wGit.gitStatusRaw →
          add_repo_segment w' basePL basePL "" = Except.ok pg :=
  c2_vcs_priority wGit basePL basePL "" "* main"
    "On branch main\nnothing to commit, working tree clean" rfl (by decide) rfl

/-- C8: under every world — in particular whenever any detector raises one
of the two modeled process-invocation errors — the dispatcher returns a
powerline, never an error; and a git failure is treated exactly as "git not
detected", falling through to the remaining candidates. -/
theorem c8_failure_policy (w : World) (p a : Powerline) (cwd : String) :
    (∃ pr, add_repo_segment w p a cwd = Except.ok pr)
    ∧ ∀ (e : PyErr) (w' : World),
        add_git_segment w p cwd = Except.error e →
        w'.svnStatusErrRaw = w.svnStatusErrRaw →
        w'.svnStatusLines = w.svnStatusLines →
        w'.hgBranchRaw = w.hgBranchRaw →
        w'.hgStatusRaw = w.hgStatusRaw →
        add_git_segment w' p cwd = Except.ok (false, p) →
        add_repo_segment w p a cwd = add_repo_segment w' p a cwd := by
  constructor
  · unfold add_repo_segment
    obtain ⟨⟨d1, p1⟩, h1⟩ := pyCatch_ok_exists (add_git_segment w p cwd) p
    cases d1
    · simp only [h1]
      obtain ⟨⟨d2, p2⟩, h2⟩ := pyCatch_ok_exists (add_svn_segment w p1 cwd) p1
      cases d2
      · simp only [h2]
        obtain ⟨⟨d3, p3⟩, h3⟩ :=
          pyCatch_ok_exists (add_hg_segment w p2 cwd) p2
        cases d3
        · simp only [h3]
          exact ⟨p3, rfl⟩
        · simp only [h3]
          exact ⟨p3, rfl⟩
      · simp only [h2]
        exact ⟨p2, rfl⟩
    · simp only [h1]
      exact ⟨p1, rfl⟩
  · intro e w' hge h1 h2 h3 h4 hge'
    have hsvn : add_svn_segment w' p cwd = add_svn_segment w p cwd :=
      add_svn_segment_congr w w' p cwd h1 h2
    have hc1 : pyCatch (add_git_segment w p cwd) p = Except.ok (false, p) := by
      rw [hge]
      cases e <;> rfl
    have hc1' : pyCatch (add_git_segment w' p cwd) p
        = Except.ok (false, p) := by
      rw [hge']
      rfl
    unfold add_repo_segment
    simp only [hc1, hc1', hsvn]
    obtain ⟨⟨d2, p2⟩, h2c⟩ := pyCatch_ok_exists (add_svn_segment w p cwd) p
    cases d2
    · simp only [h2c]
      have hhg : add_hg_segment w' p2 cwd = add_hg_segment w p2 cwd :=
        add_hg_segment_congr w w' p2 cwd h3 h4
      rw [hhg]
    · simp only [h2c]

/-- Witness for C8: git spawning fails with `OSError`; the run equals the
run in which git is merely absent. -/
theorem c8_failure_policy_witness :
    add_repo_segment wGitErr basePL basePL ""
      = add_repo_segment wGitAbsent basePL basePL "" :=
  (c8_failure_policy wGitErr basePL basePL "").2 PyErr.oSError wGitAbsent
    rfl rfl rfl rfl rfl rfl

/-! ## git ahead badge (claim C7) -/

theorem gitStep_origin_of_none (st : GitStatus) (l : String)
    (h : findOrigin l.toList = none) :
    (gitStep st l).origin_position = st.origin_position := by
  unfold gitStep
  rw [h]
  dsimp only
  split
  · split
    · rfl
    · rfl
  · split
    · rfl
    · rfl

theorem gitStep_ahead (st : GitStatus) :
    (gitStep st gitAheadLine).origin_position = " 3⇡" := by
  have hfind : findOrigin gitAheadLine.toList = some ("ahead", ['3']) := by
    decide
  unfold gitStep
  rw [hfind]
  dsimp only
  split
  · split
    · dsimp only
      decide
    · dsimp only
      decide
  · split
    · dsimp only
      decide
    · dsimp only
      decide

theorem foldl_gitStep_origin (post : List String) :
    ∀ st : GitStatus, (∀ l ∈ post, findOrigin l.toList = none) →
      (post.foldl gitStep st).origin_position = st.origin_position := by
  induction post with
  | nil =>
    intro st _
    rfl
  | cons a t ih =>
    intro st h
    rw [List.foldl_cons, ih _ (fun l hl => h l (by simp [hl]))]
    exact gitStep_origin_of_none st a (h a (by simp))

/-- C7: any status text whose lines contain the Scenario-C phrase (and no
later ahead/behind phrase that would overwrite it) parses to the badge
`" 3⇡"` — a space, the count and the up glyph — and on the concrete
Scenario-C world `add_git_segment` appends exactly that badge to the
branch label. -/
theorem c7_git_ahead_badge :
    (∀ (pre post : List String) (st0 : GitStatus),
        (∀ l ∈ post, findOrigin l.toList = none) →
        ((pre ++ gitAheadLine :: post).foldl gitStep st0).origin_position
          = " 3⇡")
    ∧ add_git_segment wAhead basePL "" = Except.ok (true,
        basePL.append_right (Segment.make basePL " main 3⇡ "
          Color.REPO_CLEAN_FG Color.REPO_CLEAN_BG
          (some basePL.separator_right) none true)) := by
  constructor
  · intro pre post st0 hpost
    rw [List.foldl_append, List.foldl_cons,
      foldl_gitStep_origin post _ hpost]
    exact gitStep_ahead _
  · decide

/-- Witness for C7 at the one-line status text. -/
theorem c7_git_ahead_badge_witness :
    (([] ++ gitAheadLine :: []).foldl gitStep
        { has_pending_commits := true, has_untracked_files := false,
          origin_position := "" }).origin_position = " 3⇡" :=
  c7_git_ahead_badge.1 [] []
    { has_pending_commits := true, has_untracked_files := false,
      origin_position := "" } (by simp)

/-! ## Segment constructor defaults (claim C10) -/

/-- C10 counterexample: a segment constructed with background 0 and
`separator_fg = 0` gets separator foreground 0, so palette index 0 can be
a separator foreground, contrary to the claim's parenthetical. -/
theorem c10_segment_defaults_counterexample :
    (Segment.make basePL " x " 1 0 none (some 0) false).separator_fg = 0 :=
  rfl

/-- C10 (amended): a falsy `separator_fg` (`None` or 0) defaults to the
segment's own background — hence separator foreground 0 occurs only when
the background itself is 0 — and a falsy `separator` (`None` or the empty
string) defaults to the Powerline's left separator glyph. -/
theorem c10_segment_defaults (pl : Powerline) (content : String)
    (fg bg : Nat) (sep : Option String) (sfg : Option Nat) (r : Bool) :
    ((sfg = none ∨ sfg = some 0) →
      (Segment.make pl content fg bg sep sfg r).separator_fg = bg)
    ∧ ((Segment.make pl content fg bg sep sfg r).separator_fg = 0 → bg = 0)
    ∧ ((sep = none ∨ sep = some "") →
      (Segment.make pl content fg bg sep sfg r).separator = pl.separator) := by
  refine ⟨?_, ?_, ?_⟩
  · rintro (rfl | rfl) <;> simp [Segment.make]
  · intro h
    unfold Segment.make at h
    rcases sfg with _ | n
    · simpa using h
    · by_cases hn : n = 0
      · subst hn
        simpa using h
      · simp only [hn] at h
        simp [if_neg hn] at h
        exact absurd h hn
  · rintro (rfl | rfl) <;> simp [Segment.make]

/-- Witness for C10 with background 7. -/
theorem c10_segment_defaults_witness :
    (Segment.make basePL " x " 1 7 none (some 0) false).separator_fg = 7
    ∧ (Segment.make basePL " x " 1 7 none (some 0) false).separator
      = basePL.separator :=
  ⟨(c10_segment_defaults basePL " x " 1 7 none (some 0) false).1 (Or.inr rfl),
   (c10_segment_defaults basePL " x " 1 7 none (some 0) false).2.2
     (Or.inl rfl)⟩

/-! ## Decimal numeral lemmas (for the Subversion count, claim C4) -/

theorem natOfDigits_foldl_init (cs : List Char) :
    ∀ i : Nat, cs.foldl (fun n c => 10 * n + (c.toNat - '0'.toNat)) i
      = i * 10 ^ cs.length + natOfDigits cs := by
  induction cs with
  | nil =>
    intro i
    simp [natOfDigits]
  | cons c t ih =>
    intro i
    have hcons : natOfDigits (c :: t)
        = (c.toNat - '0'.toNat) * 10 ^ t.length + natOfDigits t := by
      show t.foldl _ (10 * 0 + (c.toNat - '0'.toNat)) = _
      rw [ih]
      ring_nf
    rw [List.foldl_cons, ih, hcons, List.length_cons]
    ring

theorem natOfDigits_cons (c : Char) (t : List Char) :
    natOfDigits (c :: t)
      = (c.toNat - '0'.toNat) * 10 ^ t.length + natOfDigits t := by
  show t.foldl _ (10 * 0 + (c.toNat - '0'.toNat)) = _
  rw [natOfDigits_foldl_init]
  ring_nf

theorem digitChar10_val (m : Nat) (hm : m < 10) :
    (digitChar10 m).toNat - '0'.toNat = m
    ∧ isAsciiDigit (digitChar10 m) = true := by
  interval_cases m <;> exact ⟨by decide, by decide⟩

theorem decimalCore_val : ∀ (f n : Nat) (acc : List Char), n < 10 ^ f →
    natOfDigits (decimalCore f n acc)
      = n * 10 ^ acc.length + natOfDigits acc := by
  intro f
  induction f with
  | zero =>
    intro n acc h
    interval_cases n
    simp [decimalCore]
  | succ f ih =>
    intro n acc h
    have hd := digitChar10_val (n % 10) (Nat.mod_lt _ (by norm_num))
    unfold decimalCore
    dsimp only
    split
    · rename_i h10
      have hn : n < 10 := by
        rcases Nat.lt_or_ge n 10 with hlt | hge
        · exact hlt
        · exact absurd h10 (by
            have : 0 < n / 10 := Nat.div_pos hge (by norm_num)
            omega)
      have hmod : n % 10 = n := Nat.mod_eq_of_lt hn
      rw [natOfDigits_cons, hd.1, hmod]
    · rename_i h10
      have hdiv : n / 10 < 10 ^ f := by
        rw [Nat.div_lt_iff_lt_mul (by norm_num : (0:Nat) < 10)]
        calc n < 10 ^ (f + 1) := h
        _ = 10 ^ f * 10 := by rw [pow_succ]
      rw [ih (n / 10) (digitChar10 (n % 10) :: acc) hdiv,
        natOfDigits_cons, hd.1, List.length_cons]
      have hdm : 10 * (n / 10) + n % 10 = n := Nat.div_add_mod n 10
      conv_rhs => rw [← hdm]
      ring

theorem decimalCore_mem_digit : ∀ (f n : Nat) (acc : List Char),
    (∀ c ∈ acc, isAsciiDigit c = true) →
    ∀ c ∈ decimalCore f n acc, isAsciiDigit c = true := by
  intro f
  induction f with
  | zero =>
    intro n acc h
    simpa [decimalCore] using h
  | succ f ih =>
    intro n acc h
    have hd : isAsciiDigit (digitChar10 (n % 10)) = true :=
      (digitChar10_val _ (Nat.mod_lt _ (by norm_num))).2
    have hcons : ∀ c ∈ digitChar10 (n % 10) :: acc, isAsciiDigit c = true := by
      intro c hc
      rcases List.mem_cons.mp hc with rfl | hc2
      · exact hd
      · exact h c hc2
    unfold decimalCore
    dsimp only
    split
    · exact hcons
    · exact ih (n / 10) _ hcons

theorem decimalCore_eq_nil : ∀ (f n : Nat) (acc : List Char),
    decimalCore f n acc = [] → acc = [] ∧ f = 0 := by
  intro f
  induction f with
  | zero =>
    intro n acc h
    exact ⟨h, rfl⟩
  | succ f ih =>
    intro n acc h
    unfold decimalCore at h
    dsimp only at h
    split at h
    · cases h
    · obtain ⟨h1, -⟩ := ih _ _ h
      cases h1

theorem not_space_of_digit (c : Char) (h : isAsciiDigit c = true) :
    pyIsSpace c = false := by
  by_contra hs
  rw [Bool.not_eq_false] at hs
  simp only [pyIsSpace, decide_eq_true_eq] at hs
  rcases hs with rfl | rfl | rfl | rfl | rfl | rfl <;>
    exact absurd h (by decide)

theorem dropWhile_eq_self_of_all {p : Char → Bool} :
    ∀ l : List Char, (∀ c ∈ l, p c = false) → l.dropWhile p = l := by
  intro l h
  cases l with
  | nil => rfl
  | cons c t => simp [List.dropWhile_cons, h c (by simp)]

theorem n_lt_ten_pow (n : Nat) : n < 10 ^ (n + 1) := by
  calc n < 10 ^ n := Nat.lt_pow_self (by norm_num) n
  _ ≤ 10 ^ (n + 1) := Nat.pow_le_pow_right (by norm_num) (by omega)

theorem decimalRepr_roundtrip (n : Nat) :
    natOfDigits (decimalRepr n).toList = n
    ∧ (decimalRepr n).toList ≠ []
    ∧ (∀ c ∈ (decimalRepr n).toList, isAsciiDigit c = true) := by
  refine ⟨?_, ?_, ?_⟩
  · show natOfDigits (decimalCore (n + 1) n []) = n
    rw [decimalCore_val (n + 1) n [] (n_lt_ten_pow n)]
    simp [natOfDigits]
  · intro h
    obtain ⟨-, hf⟩ := decimalCore_eq_nil _ _ _ h
    exact Nat.succ_ne_zero n hf
  · exact decimalCore_mem_digit (n + 1) n [] (by simp)

theorem pyStripL_digits (l : List Char) (hne : l ≠ [])
    (hd : ∀ c ∈ l, isAsciiDigit c = true) :
    pyStripL (l ++ ['\n']) = l ∧ pyStripL l = l := by
  have hns : ∀ c ∈ l, pyIsSpace c = false := fun c hc =>
    not_space_of_digit c (hd c hc)
  obtain ⟨a, t, rfl⟩ : ∃ a t, l = a :: t := by
    cases l with
    | nil => exact absurd rfl hne
    | cons a t => exact ⟨a, t, rfl⟩
  constructor
  · unfold pyStripL
    rw [List.cons_append]
    rw [List.dropWhile_cons]
    simp only [hns a (by simp), Bool.false_eq_true, if_false]
    have hrev : (a :: (t ++ ['\n'])).reverse
        = '\n' :: (t.reverse ++ [a]) := by
      simp
    rw [hrev]
    rw [List.dropWhile_cons]
    simp only [show pyIsSpace '\x0a' = true from by decide, if_true]
    rw [dropWhile_eq_self_of_all (t.reverse ++ [a]) (by
      intro c hc
      apply hns
      rcases List.mem_append.mp hc with hc1 | hc2
      · simp [List.mem_reverse.mp hc1]
      · simp at hc2
        simp [hc2])]
    simp
  · unfold pyStripL
    rw [List.dropWhile_cons]
    simp only [hns a (by simp), Bool.false_eq_true, if_false]
    rw [dropWhile_eq_self_of_all (a :: t).reverse (by
      intro c hc
      exact hns c (List.mem_reverse.mp hc))]
    simp

theorem mk_toList (s : String) : String.mk s.toList = s := by
  cases s
  rfl

theorem pyStrip_decimalRepr (n : Nat) :
    pyStrip (decimalRepr n ++ "\n") = decimalRepr n
    ∧ pyStrip (decimalRepr n) = decimalRepr n := by
  obtain ⟨-, hne, hdig⟩ := decimalRepr_roundtrip n
  obtain ⟨hs1, hs2⟩ := pyStripL_digits (decimalRepr n).toList hne hdig
  constructor
  · show String.mk (pyStripL ((decimalRepr n).toList ++ ['\n'])) = _
    rw [hs1]
    exact mk_toList _
  · show String.mk (pyStripL ((decimalRepr n).toList)) = _
    rw [hs2]
    exact mk_toList _

/-! ## Subversion count (claim C4) -/

/-- C4 counterexample: a status line starting with `!` is counted (and the
segment is emitted) although the claimed code set would count 0, while a
line starting with `X` — in the claimed set — is not counted. -/
theorem c4_svn_count_counterexample :
    specSvnCount ["! missing.txt"] = 0
    ∧ specSvnCount ["X external"] = 1
    ∧ svnGrepCount ["! missing.txt"] = 1
    ∧ svnGrepCount ["X external"] = 0
    ∧ add_svn_segment wSvnBang basePL "" = Except.ok (true, basePL.append
        (Segment.make basePL " 1 " Color.SVN_CHANGES_FG Color.SVN_CHANGES_BG
          none none false)) :=
  ⟨by decide, by decide, by decide, by decide, by decide⟩

/-- C4 (amended): when Subversion is detected (empty stderr), the detector
counts exactly the status lines whose first character is one of A, C, D, I,
M, R, backslash, exclamation mark, tilde (case-sensitive, per the live
`grep` bracket expression — not the spec's A,C,D,I,M,R,X), and if the count
is positive it appends exactly one segment showing the count to the left
row — never to the right row. -/
theorem c4_svn_count (w : World) (pl : Powerline) (cwd e : String)
    (lines : List String) (h1 : w.svnStatusErrRaw = Except.ok e)
    (h2 : (pyStrip e).length = 0) (h3 : w.svnStatusLines = Except.ok lines) :
    svnGrepCount lines = (lines.filter svnMatches).length
    ∧ (0 < svnGrepCount lines →
        add_svn_segment w pl cwd = Except.ok (true, pl.append
          (Segment.make pl (" " ++ decimalRepr (svnGrepCount lines) ++ " ")
            Color.SVN_CHANGES_FG Color.SVN_CHANGES_BG none none false)))
    ∧ (svnGrepCount lines = 0 →
        add_svn_segment w pl cwd = Except.ok (true, pl))
    ∧ (∀ r, add_svn_segment w pl cwd = Except.ok r →
        r.2.segments_right = pl.segments_right) := by
  obtain ⟨hval, hne, -⟩ := decimalRepr_roundtrip (svnGrepCount lines)
  obtain ⟨hstrip1, hstrip2⟩ := pyStrip_decimalRepr (svnGrepCount lines)
  have hlen : 0 < (decimalRepr (svnGrepCount lines)).length := by
    have h := List.length_pos.mpr hne
    exact h
  have hform : add_svn_segment w pl cwd
      = if 0 < (decimalRepr (svnGrepCount lines)).length
          ∧ 0 < svnGrepCount lines then
          Except.ok (true, pl.append (Segment.make pl
            (" " ++ decimalRepr (svnGrepCount lines) ++ " ")
            Color.SVN_CHANGES_FG Color.SVN_CHANGES_BG none none false))
        else Except.ok (true, pl) := by
    unfold add_svn_segment
    rw [h1, h3]
    dsimp only
    rw [if_neg (by omega)]
    rw [hstrip1, hstrip2, hval]
  refine ⟨rfl, ?_, ?_, ?_⟩
  · intro hpos
    rw [hform, if_pos ⟨hlen, hpos⟩]
  · intro h0
    rw [hform, if_neg (by
      rintro ⟨-, hx⟩
      omega)]
  · intro r hr
    rw [hform] at hr
    by_cases hc : 0 < (decimalRepr (svnGrepCount lines)).length
        ∧ 0 < svnGrepCount lines
    · rw [if_pos hc] at hr
      injection hr with heq
      subst heq
      simp [Powerline.append]
    · rw [if_neg hc] at hr
      injection hr with heq
      subst heq
      rfl

/-- Witness for C4 on the one-line `!` status. -/
theorem c4_svn_count_witness :
    add_svn_segment wSvnBang basePL "" = Except.ok (true, basePL.append
      (Segment.make basePL
        (" " ++ decimalRepr (svnGrepCount ["! missing.txt"]) ++ " ")
        Color.SVN_CHANGES_FG Color.SVN_CHANGES_BG none none false)) :=
  (c4_svn_count wSvnBang basePL "" "" ["! missing.txt"] rfl (by decide)
    rfl).2.1 (by decide)

/-! ## Working-directory collapse (claim C5) -/

theorem append_segments (pl : Powerline) (s : Segment) :
    (pl.append s).segments = pl.segments ++ [s] := rfl

theorem foldl_append_segments (ns : List Nat) :
    ∀ (pl : Powerline) (f : Nat → Segment),
      (ns.foldl (fun acc n => acc.append (f n)) pl).segments
        = pl.segments ++ ns.map f := by
  induction ns with
  | nil =>
    intro pl f
    simp
  | cons a t ih =>
    intro pl f
    rw [List.foldl_cons, ih]
    simp [Powerline.append]

/-- C5 counterexample: for the 6-component path `/a/b/c/d/e/f` with maximum
depth 4 (and `cwd_only` false), the left row receives 5 segments in total —
4 separator-carrying segments before the final one, not the 3 the claim
states. -/
theorem c5_cwd_collapse_counterexample :
    (preNames "/home/u" "/a/b/c/d/e/f").length = 6
    ∧ (add_cwd_segment "/home/u" basePL "/a/b/c/d/e/f" 4
        false).segments.length = 5 :=
  ⟨by decide, by decide⟩

/-- C5 (amended): a path of 6 components under maximum depth 4 collapses to
the first 2 components, the ellipsis, and the last 2 components; the left
row then receives 4 segments before the final current-directory segment —
the first three carrying the thin separator and the fourth carrying the
thick separator — followed by the final segment with the default thick
separator. -/
theorem c5_cwd_collapse (home cwd : String) (pl : Powerline)
    (h6 : (preNames home cwd).length = 6)
    (hsep : pl.separator ≠ "") (hthin : pl.separator_thin ≠ "") :
    cwdNames home cwd 4
      = (preNames home cwd).take 2 ++ ["…"] ++ (preNames home cwd).drop 4
    ∧ ((add_cwd_segment home pl cwd 4 false).segments).map Segment.separator
      = pl.segments.map Segment.separator
        ++ [pl.separator_thin, pl.separator_thin, pl.separator_thin,
            pl.separator, pl.separator] := by
  have hnames : cwdNames home cwd 4
      = (preNames home cwd).take 2 ++ ["…"] ++ (preNames home cwd).drop 4 := by
    unfold cwdNames collapseNames pySliceFrom
    rw [h6]
    norm_num
    rfl
  have hlen5 : (cwdNames home cwd 4).length = 5 := by
    rw [hnames]
    simp [List.length_take, List.length_drop, h6]
  have hk : (cwdNames home cwd 4).dropLast.length = 4 := by
    rw [List.length_dropLast, hlen5]
  refine ⟨hnames, ?_⟩
  unfold add_cwd_segment
  simp only [Bool.false_eq_true, if_false]
  rw [append_segments, foldl_append_segments, hk,
    show List.range 4 = [0, 1, 2, 3] from by decide]
  simp only [List.map_cons, List.map_nil, List.map_append]
  rw [hlen5]
  norm_num [Segment.make, hsep, hthin]

/-- Witness for C5 on the concrete path `/a/b/c/d/e/f`. -/
theorem c5_cwd_collapse_witness :
    cwdNames "/home/u" "/a/b/c/d/e/f" 4
      = (preNames "/home/u" "/a/b/c/d/e/f").take 2 ++ ["…"]
        ++ (preNames "/home/u" "/a/b/c/d/e/f").drop 4
    ∧ ((add_cwd_segment "/home/u" basePL "/a/b/c/d/e/f" 4
        false).segments).map Segment.separator
      = basePL.segments.map Segment.separator
        ++ [basePL.separator_thin, basePL.separator_thin,
            basePL.separator_thin, basePL.separator, basePL.separator] :=
  c5_cwd_collapse "/home/u" "/a/b/c/d/e/f" basePL (by decide) (by decide)
    (by decide)

end PowerlineShell
